import Mathlib

/-!
Verification development for the `constellix-hostip` repository.

The Python sources are shallowly embedded: network calls and library
functions become oracle parameters (functions supplied to the embedded
definitions), Python exceptions become `Except` errors, Python `None` and
possibly-unset attributes become `Option`, and machine-level concerns do
not arise (the code only manipulates small integers and strings).

String primitives (`str.split('.')`, `'.'.join`, slicing, `upper`/`lower`,
`endswith`) are re-implemented at the character-list level so that concrete
computations reduce inside the kernel.
-/

namespace PyStr

/-- Characters of `s.split(sep)` (Python keeps empty segments; `''.split('.')`
is `['']`). `acc` holds the current segment reversed. -/
def splitChars (sep : Char) : List Char → List Char → List (List Char)
  | acc, [] => [acc.reverse]
  | acc, c :: cs =>
    if c = sep then acc.reverse :: splitChars sep [] cs
    else splitChars sep (c :: acc) cs

/-- Python `s.split('.')`. -/
def pySplitDot (s : String) : List String :=
  (splitChars '.' [] s.data).map (fun l => String.mk l)

/-- Characters of `'.'.join(parts)`. -/
def joinChars : List (List Char) → List Char
  | [] => []
  | [x] => x
  | x :: y :: xs => x ++ '.' :: joinChars (y :: xs)

/-- Python `'.'.join(parts)`. -/
def pyJoinDot (parts : List String) : String :=
  String.mk (joinChars (parts.map String.data))

/-- Python `s.endswith(c)` for a one-character suffix. -/
def pyEndsWith (s : String) (c : Char) : Bool :=
  match s.data.getLast? with
  | some d => d = c
  | none => false

/-- Python `s[:n]` for `0 ≤ n` (character count; `n` past the end keeps all). -/
def pyTake (s : String) (n : Nat) : String :=
  String.mk (s.data.take n)

/-- ASCII uppercasing of one character. -/
def upperChar (c : Char) : Char :=
  if 'a' ≤ c ∧ c ≤ 'z' then Char.ofNat (c.toNat - 32) else c

/-- ASCII lowercasing of one character. -/
def lowerChar (c : Char) : Char :=
  if 'A' ≤ c ∧ c ≤ 'Z' then Char.ofNat (c.toNat + 32) else c

/-- Python `s.upper()` (sources only apply it to ASCII method/type names). -/
def pyUpper (s : String) : String :=
  String.mk (s.data.map upperChar)

/-- Python `s.lower()` (sources only apply it to ASCII host names). -/
def pyLower (s : String) : String :=
  String.mk (s.data.map lowerChar)

end PyStr

/-- Python exceptions that the embedded code can raise. -/
inductive PyErr
  | attributeError
  | typeError
  | keyError
  | nameError
  | valueError
  deriving Repr, DecidableEq

namespace Constellix

/-! Embedding of `src/src/constellix/constellix.py` (the revision cited by the
claims for `api._send` and `ConstellixAPIError`). -/

/-- Decoded JSON bodies are opaque to the client logic; they are carried
verbatim, so a string stands in for them. -/
abbrev Json := String

/-- One HTTP response, as the client observes it: status code, the optional
`X-Trace` header, the optional rate-limit headers (already parsed by the
transport oracle; `int(...)`/`float(...)` conversions are value-preserving
pass-throughs here, carried as integers), and the decoded JSON body
(`none` models a `JSONDecodeError`, which `_send` absorbs as an empty body). -/
structure Response where
  status : Nat
  xTrace : Option String
  remainingH : Option Int
  limitH : Option Int
  intervalH : Option Int
  limitIntervalH : Option Int
  limitRateH : Option Int
  body : Option Json
  deriving Repr, DecidableEq

/-- One entry of the `failures` list built per attempt (lines 184-194). -/
structure Failure where
  attempt : Nat
  trace : String
  token : String
  status : Nat
  remaining : Int
  limit : Int
  interval : Int
  limitInterval : Int
  limitRate : Int
  deriving Repr, DecidableEq

/-- The failure entry recorded for attempt `a` (headers default to
`'Unknown'` / `0` when absent, as in lines 177-182). -/
def mkFailure (a : Nat) (r : Response) (tok : String) : Failure :=
  { attempt := a
    trace := r.xTrace.getD "Unknown"
    token := tok
    status := r.status
    remaining := r.remainingH.getD 0
    limit := r.limitH.getD 0
    interval := r.intervalH.getD 0
    limitInterval := r.limitIntervalH.getD 0
    limitRate := r.limitRateH.getD 0 }

/-- `ConstellixAPIError` as `__init__` (lines 64-70) actually builds it.
Optional fields are set only when the argument is truthy. -/
structure ConstellixAPIError where
  url : String
  status : String
  message : String
  trace : Option String
  token : Option String
  failures : Option (List Failure)
  deriving Repr, DecidableEq

/-- Embeds `ConstellixAPIError.__init__`: line 66 reads `self.status = url`,
so the `status` argument is discarded and the `status` attribute holds the
URL (the docstring documents `status (int): the status code returned from
the URL`). -/
def mkConstellixAPIError (url : String) (status : Nat) (message : String)
    (trace : Option String) (token : Option String)
    (failures : Option (List Failure)) : ConstellixAPIError :=
  let _ := status
  { url := url
    status := url
    message := message
    trace := trace.bind (fun t => if t = "" then none else some t)
    token := token.bind (fun t => if t = "" then none else some t)
    failures := failures.bind (fun f => if f = [] then none else some f) }

/-- Errors that can escape `_send`: a raised `ConstellixAPIError`, or a
plain Python exception (e.g. `NameError` when the loop never ran). -/
inductive SendError
  | api (e : ConstellixAPIError)
  | py (e : PyErr)
  deriving Repr, DecidableEq

/-- One `_CACHE_GET` entry (lines 220-226). -/
structure CacheEntry where
  status : Nat
  json : Option Json
  ts : Nat
  deriving Repr, DecidableEq

/-- The process-wide GET cache `_CACHE_GET`, keyed by full URL. Insertion
prepends, lookup takes the first hit, which matches dict overwrite
semantics. -/
abbrev Cache := List (String × CacheEntry)

/-- Statuses on which the retry loop breaks (lines 196-202): exactly 200,
400 and 404 — not the rest of the 2xx range. -/
def isFinalStatus (s : Nat) : Bool :=
  s == 200 || s == 400 || s == 404

/-- The `while attempt <= self.__tries` loop of `_send` (lines 168-205),
driven by the per-attempt response oracle `resp` and per-attempt freshly
signed token oracle `tok` (`_getToken` is re-run every iteration, so the
token is a function of the attempt). Returns the failure entries appended,
one per executed attempt, together with the index of the last executed
attempt (`0` when the loop never ran). -/
def attemptLoop (resp : Nat → Response) (tok : Nat → String) :
    Nat → Nat → List Failure × Nat
  | 0, a => ([], a - 1)
  | fuel + 1, a =>
    let r := resp a
    let f := mkFailure a r (tok a)
    if isFinalStatus r.status then ([f], a)
    else
      let rest := attemptLoop resp tok fuel (a + 1)
      (f :: rest.1, rest.2)

/-- Outcome of one `_send` call: the returned value or raised error, the
GET cache afterwards, and how many network requests were performed. -/
structure SendOutcome where
  result : Except SendError (Option Json)
  cache : Cache
  requests : Nat

/-- The retry-and-respond phase of `api._send` (lines 168-228), entered
after the cache was missed: run the attempt loop, then return the decoded
body (2xx), an empty result (404), or raise `ConstellixAPIError`; a GET
with caching enabled (`cacheFlag`) stores the decoded body under `url`
before returning. A zero `tries` leaves `response` unbound, a NameError. -/
def sendNetwork (tries : Nat) (resp : Nat → Response) (tok : Nat → String)
    (now : Nat) (url method direction : String) (cacheFlag : Bool)
    (cacheSt : Cache) : SendOutcome :=
  if tries = 0 then
    { result := .error (.py .nameError), cache := cacheSt, requests := 0 }
  else
    let run := attemptLoop resp tok tries 1
    let failures := run.1
    let last := run.2
    let r := resp last
    if 200 ≤ r.status ∧ r.status ≤ 299 then
      { result := .ok r.body
        cache :=
          if cacheFlag then (url, ⟨r.status, r.body, now⟩) :: cacheSt
          else cacheSt
        requests := failures.length }
    else if r.status = 404 then
      { result := .ok none
        cache :=
          if cacheFlag then (url, ⟨r.status, none, now⟩) :: cacheSt
          else cacheSt
        requests := failures.length }
    else
      -- line 218 re-reads `response.headers["X-Trace"]`: KeyError if absent
      match r.xTrace with
      | none =>
        { result := .error (.py .keyError), cache := cacheSt
          requests := failures.length }
      | some tr =>
        { result := .error (.api (mkConstellixAPIError url r.status
            ("Unable to " ++ method ++ " data " ++ direction ++
              " Constellix API.")
            (some tr) (some (tok last)) (some failures)))
          cache := cacheSt
          requests := failures.length }

/-- Embeds `api._send` (lines 138-228). `dataEnc` is `none` when `data` is
falsy, otherwise `some` of its urlencoded form (only used for GET query
strings; for other methods `data` only populates the request payload, which
the response oracle already accounts for). `now` supplies `time.time_ns`
for the cache timestamp. A cache hit (GET, caching enabled, URL present)
short-circuits the whole network path (lines 159-161). -/
def send (tries : Nat) (resp : Nat → Response) (tok : Nat → String)
    (now : Nat) (baseUrl endpoint : String) (dataEnc : Option String)
    (method0 : String) (useGetCache : Bool) (cacheSt : Cache) : SendOutcome :=
  let url0 := baseUrl ++ "/" ++ endpoint
  let method := PyStr.pyUpper method0
  let direction :=
    if (method = "POST" ∨ method = "PUT") ∧ dataEnc.isSome then "to" else "from"
  let url :=
    if method = "GET" then
      match dataEnc with
      | some q => url0 ++ "?" ++ q
      | none => url0
    else url0
  let cacheFlag : Bool := (method == "GET") && useGetCache
  let hit : Option CacheEntry :=
    if cacheFlag then cacheSt.lookup url else none
  match hit with
  | some e => { result := .ok e.json, cache := cacheSt, requests := 0 }
  | none => sendNetwork tries resp tok now url method direction cacheFlag cacheSt

/-- The failure entries recorded for attempts `a, a+1, …, a+fuel-1`. -/
def failuresRange (resp : Nat → Response) (tok : Nat → String) :
    Nat → Nat → List Failure
  | _, 0 => []
  | a, fuel + 1 =>
    mkFailure a (resp a) (tok a) :: failuresRange resp tok (a + 1) fuel

/-- A transport oracle that answers 500 on every attempt (exercises the
retry-exhaustion path). -/
def resp500 : Nat → Response := fun _ =>
  { status := 500, xTrace := some "T", remainingH := some 5, limitH := some 10
    intervalH := some 60, limitIntervalH := some 0, limitRateH := some 0
    body := none }

/-- A transport oracle that answers 201 on every attempt (a 2xx status the
loop does not treat as final). -/
def resp201 : Nat → Response := fun _ =>
  { status := 201, xTrace := some "T", remainingH := some 5, limitH := some 10
    intervalH := some 60, limitIntervalH := some 0, limitRateH := some 0
    body := some "CREATED" }

/-- A transport oracle that answers 200 on every attempt. -/
def respOk : Nat → Response := fun _ =>
  { status := 200, xTrace := some "T", remainingH := some 5, limitH := some 10
    intervalH := some 60, limitIntervalH := some 0, limitRateH := some 0
    body := some "BODY" }

/-- A sample per-attempt token oracle. -/
def tokSample : Nat → String := fun k => "tok" ++ toString k

/-- The full URL a GET `_send` builds: base, slash, endpoint, and the
urlencoded query string when `data` is truthy (lines 139 and 158). -/
def getUrl (baseUrl endpoint : String) (dataEnc : Option String) : String :=
  match dataEnc with
  | some q => baseUrl ++ "/" ++ endpoint ++ "?" ++ q
  | none => baseUrl ++ "/" ++ endpoint

end Constellix

namespace Dns

/-! Embedding of `src/constellix/dns.py` (Domain, Record and their
helpers). Provider lookups (`api.search`, `api.get`) and the `ipaddress`
library become oracle parameters. -/

/-- One element of a provider round-robin `value` list: either a plain
string, or a `{value, disableFlag}` dict. (For a plain string the dict
membership tests of `__clean_values` are substring tests in Python; a
provider value never contains both the substrings `value` and
`disableFlag`, so the string case always falls through them.) -/
inductive PyValue
  | str (s : String)
  | entry (value : String) (disableFlag : Bool)
  deriving Repr, DecidableEq

/-- Whether a provider value is a `{value, disableFlag}` dict with
`disableFlag` true. -/
def PyValue.isDisabled : PyValue → Bool
  | .entry _ true => true
  | _ => false

/-- The enabled payload of a provider value (`none` for a disabled one). -/
def PyValue.enabledSource : PyValue → Option String
  | .str s => some s
  | .entry v false => some v
  | .entry _ true => none

/-- Whether the record type at hand triggers IP canonicalisation in
`Record.__clean_values` (line 1159). -/
def isIpType (rt : Option String) : Bool :=
  rt == some "A" || rt == some "AAAA"

/-- The `str(ipaddress.ip_address(value))` step of `__clean_values` (line
1160), applied only for A/AAAA records; `canon` is the `ipaddress` oracle
and `none` models a raised `ValueError`, which the method does not catch. -/
def canonStep (canon : String → Option String) (isIp : Bool) (raw : String) :
    Except PyErr String :=
  if isIp then
    match canon raw with
    | some c => Except.ok c
    | none => Except.error PyErr.valueError
  else Except.ok raw

/-- Embeds `Record.__clean_values` (lines 1150-1162): disabled
`{value, disableFlag}` entries are skipped (`continue`), enabled ones are
unwrapped, the value is canonicalised for A/AAAA records, and the string
is appended. Exceptions propagate. -/
def clean_values (canon : String → Option String) (isIp : Bool) :
    List PyValue → Except PyErr (List String)
  | [] => .ok []
  | v :: vs =>
    match PyValue.enabledSource v with
    | none => clean_values canon isIp vs
    | some raw =>
      match canonStep canon isIp raw with
      | .error e => .error e
      | .ok s =>
        match clean_values canon isIp vs with
        | .error e => .error e
        | .ok rest => .ok (s :: rest)

/-- The attributes `Record.__init__` may leave set (`none` = unset). -/
structure Record where
  id : Option Int := none
  name : Option String := none
  record_type : Option String := none
  values : Option (List String) := none
  deriving Repr, DecidableEq

/-- A provider payload dict as `Record.__init__` consumes it: each field is
`some` when the corresponding key is present (`"id" in self.__provider_data`
is a key-presence test, not a truthiness test). -/
structure ProviderData where
  id : Option Int := none
  name : Option String := none
  type : Option String := none
  value : Option (List PyValue) := none
  deriving Repr, DecidableEq

/-- Python truthiness of the optional explicit `id` argument (`0` is falsy). -/
def truthyInt (o : Option Int) : Bool :=
  match o with
  | some v => v != 0
  | none => false

/-- Python truthiness of an optional string argument (`''` is falsy). -/
def truthyStr (o : Option String) : Bool :=
  match o with
  | some s => s != ""
  | none => false

/-- The explicit `values` argument of `Record.__init__`: a string or a list
(line 1145 wraps a string into a one-element list before cleaning). -/
inductive ValuesArg
  | ofString (s : String)
  | ofList (l : List PyValue)
  deriving Repr, DecidableEq

/-- Python truthiness of the optional `values` argument. -/
def truthyValues (o : Option ValuesArg) : Bool :=
  match o with
  | some (.ofString s) => s != ""
  | some (.ofList l) => !l.isEmpty
  | none => false

/-- The list handed to `__clean_values` for a truthy explicit `values`. -/
def ValuesArg.asList : ValuesArg → List PyValue
  | .ofString s => [.str s]
  | .ofList l => l

/-- The provider-payload half of `Record.__init__` (lines 1128-1137): the
keys present in the payload populate `id`, the lowercased `name`, the
uppercased `type`, and — using the record type assigned so far — the
cleaned `value` list. A provided payload dict is assumed non-empty (hence
truthy). -/
def initFromProvider (canon : String → Option String)
    (provider_data : Option ProviderData) : Except PyErr Record :=
  match provider_data with
  | none => .ok {}
  | some pd =>
    let r1 : Record :=
      { id := pd.id
        name := pd.name.map PyStr.pyLower
        record_type := pd.type.map PyStr.pyUpper
        values := none }
    match pd.value with
    | none => .ok r1
    | some vs =>
      match clean_values canon (isIpType r1.record_type) vs with
      | .error e => .error e
      | .ok cleaned => .ok { r1 with values := some cleaned }

/-- The explicit-argument half of `Record.__init__` (lines 1138-1143):
each truthy argument overwrites the corresponding attribute (`values` is
handled separately afterwards). -/
def applyOverrides (id : Option Int) (record_type name : Option String)
    (r : Record) : Record :=
  let r := if truthyInt id then { r with id := id } else r
  let r := if truthyStr record_type then { r with record_type := record_type } else r
  if truthyStr name then { r with name := name } else r

/-- Embeds `Record.__init__` (lines 1126-1148): the provider payload is
applied first, then the truthy explicit arguments overwrite attributes,
and a truthy explicit `values` (a string wrapped into a one-element list,
or a list) is cleaned using the record type assigned so far. -/
def Record.init (canon : String → Option String) (id : Option Int)
    (record_type : Option String) (name : Option String)
    (values : Option ValuesArg) (provider_data : Option ProviderData) :
    Except PyErr Record :=
  match initFromProvider canon provider_data with
  | .error e => .error e
  | .ok r2 =>
    let r5 := applyOverrides id record_type name r2
    match values with
    | some va =>
      if truthyValues (some va) then
        match clean_values canon (isIpType r5.record_type) va.asList with
        | .error e => .error e
        | .ok cleaned => .ok { r5 with values := some cleaned }
      else .ok r5
    | none => .ok r5

/-- The two attributes that hold a Domain's TTL state after construction:
`default_ttl` is the plain attribute the constructor's `if ttl:` branch
assigns (the property is spelled `deafult_ttl`, so no setter runs), and
`internal` is the name-mangled `_Domain__default_ttl` that the
`deafult_ttl` property setter maintains. -/
structure TtlState where
  default_ttl : Option Int
  internal : Option Int
  deriving Repr, DecidableEq

/-- Embeds the `deafult_ttl` property setter (lines 114-122): clamps into
`[0, 604800]` and stores into `_Domain__default_ttl`. -/
def deafult_ttl_set (st : TtlState) (v : Int) : TtlState :=
  let clamped : Int := if v < 0 then 0 else if 604800 ≤ v then 604800 else v
  { st with internal := some clamped }

/-- Embeds the TTL part of `Domain.__init__` (lines 58-61): `if ttl:` is a
truthiness test, so `ttl = 0` takes the `else` branch; a truthy `ttl` is
assigned to the plain attribute `default_ttl` and the mangled attribute is
never initialised. -/
def domainInitTtl (ttl : Option Int) : TtlState :=
  match ttl with
  | some t =>
    if t ≠ 0 then { default_ttl := some t, internal := none }
    else deafult_ttl_set { default_ttl := none, internal := none } 3600
  | none => deafult_ttl_set { default_ttl := none, internal := none } 3600

/-- Embeds the `deafult_ttl` property getter (lines 108-112): reading
`self.__default_ttl` before any assignment raises `AttributeError`; a
falsy stored value (0) reads back as 3600. -/
def deafult_ttl_get (st : TtlState) : Except PyErr Int :=
  match st.internal with
  | none => Except.error PyErr.attributeError
  | some v => Except.ok (if v ≠ 0 then v else 3600)

/-- Reading `self.__default_ttl` directly (as the `template_*` bodies do at
`if not ttl: ttl = self.__default_ttl`): `AttributeError` when unset. -/
def readInternalTtl (st : TtlState) : Except PyErr Int :=
  match st.internal with
  | none => Except.error PyErr.attributeError
  | some v => Except.ok v

/-- One entry of a template's `roundRobin` list. -/
structure RoundRobinEntry where
  value : String
  disableFlag : Bool
  deriving Repr, DecidableEq

/-- A `template_*` result `{name, ttl, roundRobin}`. -/
structure Template where
  name : String
  ttl : Int
  roundRobin : List RoundRobinEntry
  deriving Repr, DecidableEq

/-- Embeds `Domain.template_A` (lines 229-249; `template_AAAA` is
identical): a falsy `ttl` argument is replaced by `self.__default_ttl`
(raising `AttributeError` when that was never initialised), then each
value is canonicalised through `ipaddress.ip_address` and wrapped as an
enabled round-robin entry. -/
def template_A (canon : String → Option String) (domainName : String)
    (st : TtlState) (values : Option (List String)) (ttl : Option Int) :
    Except PyErr Template :=
  match (match ttl with
         | some v => if v ≠ 0 then Except.ok v else readInternalTtl st
         | none => readInternalTtl st) with
  | .error e => .error e
  | .ok t =>
    match (match values with
           | none => Except.ok ([] : List RoundRobinEntry)
           | some vs =>
             vs.mapM (fun v =>
               match canon v with
               | some c =>
                 Except.ok ({ value := c, disableFlag := false } : RoundRobinEntry)
               | none => Except.error PyErr.valueError)) with
    | .error e => .error e
    | .ok rr => .ok { name := domainName, ttl := t, roundRobin := rr }

/-- A `DiffResult` dict as `Domain.__diff` builds it. -/
structure DiffData where
  to_delete : List String
  to_create : List String
  exists_ : List String
  deriving Repr, DecidableEq

/-- Embeds `Domain.__diff` (lines 180-203). `current` is
`getattr(self.records, record_type)`: the per-type `Records` property,
which returns a Python *list* of `Record` objects. Line 183
`print(current.values)` reads attribute `values` on that list, which
raises `AttributeError` unconditionally. The rest of the body is
translated after the raising step for completeness (with
`hasattr(current, "values")` false for a list); it is unreachable. -/
def Domain.diff (current : List Record) (new_values : Option (List String)) :
    Except PyErr (Option DiffData) := do
  let _ ← (Except.error PyErr.attributeError : Except PyErr Unit)
  if current.isEmpty ∧ (new_values = none ∨ new_values = some []) then
    Except.ok none
  else do
    let nv ←
      match new_values with
      | none => (Except.error PyErr.typeError : Except PyErr (List String))
      | some l => Except.ok l
    Except.ok (some { to_delete := [], to_create := nv, exists_ := [] })

/-- One pending change dict appended by `add_update` (lines 211-216). -/
structure Change where
  type : String
  add : Bool
  set : Template
  deriving Repr, DecidableEq

/-- Embeds `Domain.add_update` (lines 206-217) for an A/AAAA record type
(whose templates canonicalise IPs): runs `__diff`, then — if the diff is
`None` the `"to_create" in diff` test raises `TypeError` — appends one add
operation when `to_create` is non-empty. The string-wrapping of a lone
`values` argument is performed by the callers in this model. -/
def Domain.add_update (canon : String → Option String) (st : TtlState)
    (domainName : String) (changes : List Change) (current : List Record)
    (record_type : String) (values : Option (List String)) :
    Except PyErr (List Change × Option DiffData) := do
  let diff ← Domain.diff current values
  let d ←
    match diff with
    | none => (Except.error PyErr.typeError : Except PyErr DiffData)
    | some d => Except.ok d
  if ¬d.to_create.isEmpty then do
    let t ← template_A canon domainName st (some d.to_create) none
    Except.ok (changes ++ [{ type := PyStr.pyLower record_type, add := true, set := t }],
      some d)
  else
    Except.ok (changes, some d)

/-- One zone search result `{id, name}` as `Domain.__init__` consumes it. -/
structure ZoneData where
  id : Int
  name : String
  deriving Repr, DecidableEq

/-- The `while attempt < partcount+1` search loop of `Domain.__init__`
(lines 67-77): searches the suffix obtained by dropping the leftmost
`attempt - 1` labels, and stops at the first non-empty result. Returns the
final `attempt` together with the last search result. -/
def searchLoop (search : String → List ZoneData) (parts : List String) :
    Nat → Nat → Nat × List ZoneData
  | 0, a => (a, [])
  | fuel + 1, a =>
    let res := search (PyStr.pyJoinDot (parts.drop (a - 1)))
    if res.isEmpty then searchLoop search parts fuel (a + 1)
    else (a, res)

/-- The attributes `Domain.__init__` sets when a zone is found. -/
structure Located where
  parent_id : Int
  parent_name : String
  name : String
  deriving Repr, DecidableEq

/-- Embeds the zone-locating part of `Domain.__init__` (lines 63-90):
split the FQDN on dots, search suffixes dropping the leftmost label one at
a time, and on the first non-empty result record the zone id/name and
compute the local name as the slice `fqdn[:-(len(parent_name)+1)]` (empty
when the first attempt matched). Returns `none` when no suffix matches
(the caller sees a Domain without a `parent_id`). A non-empty search
result's first element is assumed truthy (a non-empty dict). -/
def domainLocate (search : String → List ZoneData) (fqdn : String) :
    Option Located :=
  let domainparts := PyStr.pySplitDot fqdn
  let found := searchLoop search domainparts domainparts.length 1
  match found.2 with
  | [] => none
  | z :: _ =>
    some { parent_id := z.id
           parent_name := z.name
           name :=
             if 1 < found.1 then
               PyStr.pyTake fqdn (fqdn.length - (z.name.length + 1))
             else "" }

/-- Exact-name zone search: the provider returns the registered zones
whose name equals the query (the `__init__` loop passes the suffix as an
`{"exact": suffix}` search). -/
def exactSearch (zones : List ZoneData) (q : String) : List ZoneData :=
  zones.filter (fun z => z.name == q)

/-- An identity IP canonicalisation oracle (the sample inputs below are
already canonical, where `str(ipaddress.ip_address(s)) = s`). -/
def idCanon : String → Option String := fun s => some s

/-- A current A record carrying a provider id, as `get_all_records` stores
it. -/
def recA : Record :=
  { id := some 123, name := some "demo.sydney", record_type := some "A"
    values := some ["172.16.1.100"] }

/-- A provider payload carrying one enabled round-robin value. -/
def pdRound : ProviderData :=
  { id := some 1, name := some "demo.sydney", type := some "A"
    value := some [.entry "172.16.1.100" false] }

/-- The record `Record.__init__` reconstructs from `pdRound`. -/
def recRound : Record :=
  { id := some 1, name := some "demo.sydney", record_type := some "A"
    values := some ["172.16.1.100"] }

end Dns

namespace Host

/-! Embedding of the PTR reconciliation helpers of
`src/constellix/host.py`. The provider API and the zone resolution
(`get_domain`, defined in a revision of the repository not among the
source files) become oracle parameters. -/

/-- Module-level default TTL (line 61). -/
def DEFAULT_TTL : Int := 1800

/-- A resolved reverse-zone parent `{id, subdomain}`. -/
structure PtrParent where
  id : Int
  subdomain : String
  deriving Repr, DecidableEq

/-- One record search result (only its id and name are consumed). -/
structure SearchRec where
  id : Int
  name : String
  deriving Repr, DecidableEq

/-- A fetched PTR record `{id, name, value}`. -/
structure PtrRecordData where
  id : Int
  name : String
  value : List Dns.PyValue
  deriving Repr, DecidableEq

/-- Embeds `check_value` (lines 84-95): collect the plain strings and the
enabled `{value, disableFlag}` entries, and test membership of `check`. -/
def check_value (values : List Dns.PyValue) (check : String) : Bool :=
  let value_list := values.filterMap (fun v =>
    match v with
    | .str s => some s
    | .entry value flag => if flag then none else some value)
  if value_list.isEmpty then false
  else value_list.contains check

/-- Embeds `get_domain_record` (lines 110-120): a falsy `domain_id`
short-circuits; otherwise the record search (an exact-name search against
`{domain_id}/records/{TYPE}/search`, abstracted by the `apiSearch` oracle)
yields its first result, if any. -/
def get_domain_record (apiSearch : Int → String → String → List SearchRec)
    (domain_id : Int) (subdomain : String) (record_type : String) :
    Option SearchRec :=
  if domain_id = 0 then none
  else
    match apiSearch domain_id (PyStr.pyUpper record_type) subdomain with
    | [] => none
    | r :: _ => some r

/-- The payload `create_ptr` builds for an update or create: `roundRobin`
entries carry only a `value` key. -/
structure PtrPayload where
  name : String
  ttl : Int
  roundRobin : List String
  deriving Repr, DecidableEq

/-- What one `create_ptr` call did: skipped (no reverse zone), returned
the existing record unchanged, issued an update (keyed by the existing
record's id), or issued a create. The `result` fields carry the API
response (`none` makes the function return `None`). -/
inductive CreatePtrOutcome
  | skipped
  | noop (rec : PtrRecordData)
  | updated (parentId recordId : Int) (payload : PtrPayload)
      (result : Option Constellix.Json)
  | created (parentId : Int) (payload : PtrPayload)
      (result : Option Constellix.Json)
  deriving Repr, DecidableEq

/-- The create branch of `create_ptr` (lines 256-269). -/
def createBranch (apiCreate : Int → String → PtrPayload → Option Constellix.Json)
    (parent : PtrParent) (domain : String) : CreatePtrOutcome :=
  let payload : PtrPayload :=
    { name := parent.subdomain, ttl := DEFAULT_TTL, roundRobin := [domain] }
  .created parent.id payload (apiCreate parent.id "PTR" payload)

/-- The PTR target value `create_ptr` uses: the forward FQDN with a
trailing dot ensured (lines 229-230). -/
def withDot (domain0 : String) : String :=
  if PyStr.pyEndsWith domain0 '.' then domain0 else domain0 ++ "."

/-- Embeds `create_ptr` (lines 227-269). `reverse_pointer` stands for
`ipaddress.ip_address(ip).reverse_pointer` (the `ipaddress` library value
abstracted by its reverse name); `get_domain` resolves the reverse zone;
the `api*` oracles stand for the provider calls. A truthy
`ptr_record_search` whose subsequent fetch returns a falsy record falls
into the create branch (the `if ptr_record_search and ptr_record` test). -/
def create_ptr (get_domain : String → Option PtrParent)
    (apiSearch : Int → String → String → List SearchRec)
    (apiGet : Int → String → Int → Option PtrRecordData)
    (apiUpdate : Int → String → Int → PtrPayload → Option Constellix.Json)
    (apiCreate : Int → String → PtrPayload → Option Constellix.Json)
    (reverse_pointer : String) (domain0 : String) : CreatePtrOutcome :=
  let domain := withDot domain0
  match get_domain reverse_pointer with
  | none => .skipped
  | some parent =>
    match get_domain_record apiSearch parent.id parent.subdomain "ptr" with
    | some searchRec =>
      match apiGet parent.id "PTR" searchRec.id with
      | some ptr_record =>
        if check_value ptr_record.value domain then .noop ptr_record
        else
          let payload : PtrPayload :=
            { name := ptr_record.name, ttl := DEFAULT_TTL
              roundRobin := [domain] }
          .updated parent.id ptr_record.id payload
            (apiUpdate parent.id "PTR" ptr_record.id payload)
      | none => createBranch apiCreate parent domain
    | none => createBranch apiCreate parent domain

/-- A reverse-zone resolution oracle knowing one reverse zone. -/
def gdSample : String → Option PtrParent := fun s =>
  if s = "100.1.16.172.in-addr.arpa" then some ⟨500, "100.1"⟩ else none

/-- A record search oracle that finds nothing. -/
def searchEmpty : Int → String → String → List SearchRec := fun _ _ _ => []

/-- A record fetch oracle that finds nothing. -/
def apiGetNone : Int → String → Int → Option PtrRecordData := fun _ _ _ => none

/-- An update oracle whose result is never consumed in the sample run. -/
def apiUpdateNone : Int → String → Int → PtrPayload → Option Constellix.Json :=
  fun _ _ _ _ => none

/-- A create oracle acknowledging the new record. -/
def apiCreateOk : Int → String → PtrPayload → Option Constellix.Json :=
  fun _ _ _ => some "OK"

end Host

namespace Submit

/-! Model of the bulk-submission count verification (claim C2). -/

/-- The kind of one pending operation in a zone's batch. -/
inductive OpKind
  | add
  | update
  | delete
  deriving Repr, DecidableEq

/-- Per-kind operation counts. -/
structure OpCounts where
  added : Nat
  updated : Nat
  deleted : Nat
  deriving Repr, DecidableEq

/-- The per-kind counts of the operations actually sent. -/
def countOps (ops : List OpKind) : OpCounts :=
  { added := (ops.filter (· == OpKind.add)).length
    updated := (ops.filter (· == OpKind.update)).length
    deleted := (ops.filter (· == OpKind.delete)).length }

/-- Whether a character is an ASCII digit. -/
def isDigitChar (c : Char) : Bool :=
  '0' ≤ c ∧ c ≤ '9'

/-- Numeric value of a digit run, most significant digit first. -/
def natOfDigits (ds : List Char) : Nat :=
  ds.foldl (fun acc d => acc * 10 + (d.toNat - 48)) 0

/-- Whether `l` starts with `pat`. -/
def startsWithChars : List Char → List Char → Bool
  | _, [] => true
  | [], _ :: _ => false
  | c :: cs, p :: ps => c = p && startsWithChars cs ps

/-- First-match scan for the pattern `(\d+) record\(s\) <kind>`: walk the
text keeping the reversed prefix; at a position where the rest starts with
`pat` (the text ` record(s) <kind>`) and at least one digit immediately
precedes it, return the value of that digit run. -/
def scanCount (pat : List Char) : List Char → List Char → Option Nat
  | _, [] => none
  | pre, c :: cs =>
    if startsWithChars (c :: cs) pat then
      let ds := (pre.takeWhile isDigitChar).reverse
      if ds.isEmpty then scanCount pat (c :: pre) cs
      else some (natOfDigits ds)
    else scanCount pat (c :: pre) cs

/-- Modelled from the spec: the revision of `dns.Domain.sync` that
`src/src/constellix/host.py` calls (it expects a result carrying
`added`/`updated`/`deleted` counts) is not among the source files. Per the
spec (sections 4.5, 8 and 9), the submitter parses counts of
"N record(s) added", "N record(s) updated" and "N record(s) deleted" out
of the provider's free-text summary with a regular expression, a missing
pattern falling through as a zero count. -/
def parseSummary (summary : String) : OpCounts :=
  { added := (scanCount " record(s) added".data [] summary.data).getD 0
    updated := (scanCount " record(s) updated".data [] summary.data).getD 0
    deleted := (scanCount " record(s) deleted".data [] summary.data).getD 0 }

/-- A reconciliation-count mismatch: the expected and the parsed counts. -/
structure SyncMismatch where
  expected : OpCounts
  parsed : OpCounts
  deriving Repr, DecidableEq

/-- Modelled from the spec: the submitter compares the parsed per-kind
counts with the counts of operations actually sent for the zone; on any
difference it raises a fatal mismatch error (no partial success), and on
agreement it returns the counts to the caller. -/
def sync_verify (ops : List OpKind) (summary : String) :
    Except SyncMismatch OpCounts :=
  let expected := countOps ops
  let parsed := parseSummary summary
  if parsed = expected then Except.ok parsed
  else Except.error { expected := expected, parsed := parsed }

end Submit

namespace Constellix

theorem failuresRange_length (resp : Nat → Response) (tok : Nat → String) :
    ∀ fuel a, (failuresRange resp tok a fuel).length = fuel := by
  intro fuel
  induction fuel with
  | zero => intro a; rfl
  | succ n ih => intro a; simp [failuresRange, ih (a + 1)]

theorem failuresRange_get (resp : Nat → Response) (tok : Nat → String) :
    ∀ fuel a i, i < fuel →
    (failuresRange resp tok a fuel).get? i =
      some (mkFailure (a + i) (resp (a + i)) (tok (a + i))) := by
  intro fuel
  induction fuel with
  | zero => intro a i h; omega
  | succ n ih =>
    intro a i h
    cases i with
    | zero => simp [failuresRange]
    | succ j =>
      have h2 := ih (a + 1) j (by omega)
      simp only [failuresRange, List.get?_cons_succ, h2]
      have e : a + 1 + j = a + (j + 1) := by omega
      rw [e]

theorem attemptLoop_final (resp : Nat → Response) (tok : Nat → String)
    (fuel a : Nat) (h : isFinalStatus (resp a).status = true) :
    attemptLoop resp tok (fuel + 1) a = ([mkFailure a (resp a) (tok a)], a) := by
  simp [attemptLoop, h]

theorem attemptLoop_all_retry (resp : Nat → Response) (tok : Nat → String) :
    ∀ fuel a, (∀ k, a ≤ k → k < a + fuel → isFinalStatus (resp k).status = false) →
    attemptLoop resp tok fuel a = (failuresRange resp tok a fuel, a + fuel - 1) := by
  intro fuel
  induction fuel with
  | zero => intro a _; simp [attemptLoop, failuresRange]
  | succ n ih =>
    intro a h
    have ha : isFinalStatus (resp a).status = false :=
      h a (Nat.le_refl a) (by omega)
    have hrest := ih (a + 1) (fun k hk1 hk2 => h k (by omega) (by omega))
    simp only [attemptLoop, ha, Bool.false_eq_true, if_false, hrest]
    simp only [failuresRange, Prod.mk.injEq]
    exact ⟨trivial, by omega⟩

theorem sendNetwork_first_200 (tries : Nat) (resp : Nat → Response)
    (tok : Nat → String) (now : Nat) (url method direction : String)
    (cacheFlag : Bool) (cacheSt : Cache) (htries : tries ≠ 0)
    (h200 : (resp 1).status = 200) :
    sendNetwork tries resp tok now url method direction cacheFlag cacheSt =
      { result := .ok (resp 1).body
        cache :=
          if cacheFlag then (url, ⟨200, (resp 1).body, now⟩) :: cacheSt
          else cacheSt
        requests := 1 } := by
  obtain ⟨t, rfl⟩ := Nat.exists_eq_succ_of_ne_zero htries
  have hfin : isFinalStatus (resp 1).status = true := by
    rw [h200]; rfl
  simp only [sendNetwork, Nat.succ_ne_zero, if_neg, if_false,
    attemptLoop_final resp tok t 1 hfin, h200]
  norm_num

theorem sendNetwork_requests_all_retry (tries : Nat) (resp : Nat → Response)
    (tok : Nat → String) (now : Nat) (url method direction : String)
    (cacheFlag : Bool) (cacheSt : Cache) (htries : tries ≠ 0)
    (h : ∀ k, 1 ≤ k → k ≤ tries → isFinalStatus (resp k).status = false) :
    (sendNetwork tries resp tok now url method direction cacheFlag
      cacheSt).requests = tries := by
  have hloop := attemptLoop_all_retry resp tok tries 1
    (fun k hk1 hk2 => h k hk1 (by omega))
  simp only [sendNetwork, if_neg htries, hloop]
  have hlen := failuresRange_length resp tok tries 1
  split
  · simpa using hlen
  · split
    · simpa using hlen
    · split <;> simpa using hlen

theorem sendNetwork_exhausted_error (tries : Nat) (resp : Nat → Response)
    (tok : Nat → String) (now : Nat) (url method direction : String)
    (cacheFlag : Bool) (cacheSt : Cache) (htries : tries ≠ 0)
    (h : ∀ k, 1 ≤ k → k ≤ tries → isFinalStatus (resp k).status = false)
    (h2xx : ¬(200 ≤ (resp tries).status ∧ (resp tries).status ≤ 299))
    (h404 : (resp tries).status ≠ 404) (tr : String)
    (htr : (resp tries).xTrace = some tr) :
    (sendNetwork tries resp tok now url method direction cacheFlag
        cacheSt).result =
      .error (.api (mkConstellixAPIError url (resp tries).status
        ("Unable to " ++ method ++ " data " ++ direction ++
          " Constellix API.")
        (some tr) (some (tok tries)) (some (failuresRange resp tok 1 tries)))) := by
  have hloop := attemptLoop_all_retry resp tok tries 1
    (fun k hk1 hk2 => h k hk1 (by omega))
  have hlast : 1 + tries - 1 = tries := by omega
  simp only [sendNetwork, if_neg htries, hloop, hlast, if_neg h2xx,
    if_neg h404, htr]

theorem send_cache_disabled (tries : Nat) (resp : Nat → Response)
    (tok : Nat → String) (now : Nat) (baseUrl endpoint : String)
    (dataEnc : Option String) (method0 : String) (cacheSt : Cache) :
    send tries resp tok now baseUrl endpoint dataEnc method0 false cacheSt =
      sendNetwork tries resp tok now
        (if PyStr.pyUpper method0 = "GET" then
          (match dataEnc with
           | some q => baseUrl ++ "/" ++ endpoint ++ "?" ++ q
           | none => baseUrl ++ "/" ++ endpoint)
         else baseUrl ++ "/" ++ endpoint)
        (PyStr.pyUpper method0)
        (if (PyStr.pyUpper method0 = "POST" ∨ PyStr.pyUpper method0 = "PUT")
            ∧ dataEnc.isSome then "to" else "from")
        false cacheSt := by
  simp [send]

/-- C3, counterexample to the claim as stated: the claim says the retry
loop terminates immediately on any 2xx status, but the loop only breaks on
200, 400 and 404 (constellix.py lines 196-202). With every attempt
answering 201 — a 2xx status — and 3 configured tries, `_send` performs
all 3 network attempts instead of stopping after the first. -/
theorem C3_counterexample_201_retried :
    (200 ≤ (resp201 1).status ∧ (resp201 1).status ≤ 299) ∧
    (send 3 resp201 tokSample 0 "https://api.dns.constellix.com/v1/domains"
      "123" none "GET" false []).requests = 3 ∧ (3 : Nat) ≠ 1 := by
  refine ⟨by decide, by rfl, by decide⟩

/-- C3 (amended): the retry loop of `api._send` terminates immediately on
status 200, 400 or 404; every other status — including 2xx statuses other
than 200 — is retried, each attempt carrying its own freshly signed token;
when all configured attempts are exhausted and the final status is neither
2xx nor 404, a provider error is raised whose failure history has exactly
one entry per attempt, the entry of attempt `i` carrying that attempt's
status and token. -/
theorem C3_retry_loop_amended (tries : Nat) (resp : Nat → Response)
    (tok : Nat → String) (now : Nat) (baseUrl endpoint : String)
    (dataEnc : Option String) (method0 : String) (cacheSt : Cache)
    (htries : tries ≠ 0) :
    (isFinalStatus (resp 1).status = true →
      (send tries resp tok now baseUrl endpoint dataEnc method0 false
        cacheSt).requests = 1) ∧
    ((∀ k, 1 ≤ k → k ≤ tries → isFinalStatus (resp k).status = false) →
      (send tries resp tok now baseUrl endpoint dataEnc method0 false
        cacheSt).requests = tries ∧
      (¬(200 ≤ (resp tries).status ∧ (resp tries).status ≤ 299) →
        (resp tries).status ≠ 404 →
        ∀ tr, (resp tries).xTrace = some tr →
        ∃ e, (send tries resp tok now baseUrl endpoint dataEnc method0 false
            cacheSt).result = Except.error (SendError.api e) ∧
          e.failures = some (failuresRange resp tok 1 tries) ∧
          (failuresRange resp tok 1 tries).length = tries ∧
          (∀ i, i < tries →
            (failuresRange resp tok 1 tries).get? i =
              some (mkFailure (1 + i) (resp (1 + i)) (tok (1 + i)))))) := by
  rw [send_cache_disabled]
  constructor
  · intro hfin
    obtain ⟨t, rfl⟩ := Nat.exists_eq_succ_of_ne_zero htries
    simp only [sendNetwork, Nat.succ_ne_zero, if_neg, if_false,
      attemptLoop_final resp tok t 1 hfin]
    split
    · rfl
    · split
      · rfl
      · split <;> rfl
  · intro hall
    refine ⟨sendNetwork_requests_all_retry _ _ _ _ _ _ _ _ _ htries hall, ?_⟩
    intro h2xx h404 tr htr
    have herr := sendNetwork_exhausted_error tries resp tok now
      (if PyStr.pyUpper method0 = "GET" then
        (match dataEnc with
         | some q => baseUrl ++ "/" ++ endpoint ++ "?" ++ q
         | none => baseUrl ++ "/" ++ endpoint)
       else baseUrl ++ "/" ++ endpoint)
      (PyStr.pyUpper method0)
      (if (PyStr.pyUpper method0 = "POST" ∨ PyStr.pyUpper method0 = "PUT")
          ∧ dataEnc.isSome then "to" else "from")
      false cacheSt htries hall h2xx h404 tr htr
    refine ⟨_, herr, ?_, ?_, ?_⟩
    · have hne : failuresRange resp tok 1 tries ≠ [] := by
        intro hnil
        have := failuresRange_length resp tok tries 1
        rw [hnil] at this
        simp at this
        omega
      simp [mkConstellixAPIError, hne]
    · exact failuresRange_length resp tok tries 1
    · intro i hi
      exact failuresRange_get resp tok tries 1 i hi

/-- C3, witness for the amended theorem: with 2 tries and every attempt
answering 500, the call performs 2 network requests and raises an error
carrying both failure entries. -/
theorem C3_retry_loop_amended_witness :
    (send 2 resp500 tokSample 0 "https://api.dns.constellix.com/v1/domains"
      "123" none "POST" false []).requests = 2 ∧
    ∃ e, (send 2 resp500 tokSample 0 "https://api.dns.constellix.com/v1/domains"
        "123" none "POST" false []).result = Except.error (SendError.api e) ∧
      e.failures = some (failuresRange resp500 tokSample 1 2) := by
  have h := C3_retry_loop_amended 2 resp500 tokSample 0
    "https://api.dns.constellix.com/v1/domains" "123" none "POST" []
    (by decide)
  have h2 := h.2 (fun k hk1 hk2 => rfl)
  refine ⟨h2.1, ?_⟩
  obtain ⟨e, he1, he2, _, _⟩ := h2.2 (by decide) (by decide) "T" rfl
  exact ⟨e, he1, he2⟩

/-- C4: when `_send` exhausts its attempts, the raised error does carry
the URL, the last trace id, the last token and the full per-attempt
failure history — but not the last HTTP status: `ConstellixAPIError.__init__`
(constellix.py line 66) assigns `self.status = url`, so the `status`
attribute holds the URL string while the actual last status (500 here) is
discarded, contradicting the class's own docstring. Evaluated at a
concrete exhausted run of 2 attempts, both answering 500. -/
theorem C4_error_status_field_holds_url :
    ∃ e, (send 2 resp500 tokSample 0 "https://api.dns.constellix.com/v1/domains"
        "123" none "GET" false []).result = Except.error (SendError.api e) ∧
      e.url = "https://api.dns.constellix.com/v1/domains/123" ∧
      e.status = e.url ∧
      e.status = "https://api.dns.constellix.com/v1/domains/123" ∧
      (resp500 2).status = 500 ∧
      e.status ≠ "500" ∧
      e.trace = some "T" ∧
      e.token = some (tokSample 2) ∧
      e.failures = some [mkFailure 1 (resp500 1) (tokSample 1),
        mkFailure 2 (resp500 2) (tokSample 2)] ∧
      (∀ f, e.failures = some f →
        f.length = 2 ∧ (∀ x, x ∈ f → x.status = 500 ∧ x.trace = "T" ∧
          x.remaining = 5 ∧ x.limit = 10 ∧ x.interval = 60)) := by
  refine ⟨_, rfl, rfl, rfl, rfl, rfl, by decide, rfl, rfl, rfl, ?_⟩
  intro f hf
  obtain rfl : [mkFailure 1 (resp500 1) (tokSample 1),
      mkFailure 2 (resp500 2) (tokSample 2)] = f := Option.some.inj hf
  refine ⟨rfl, ?_⟩
  intro x hx
  cases hx with
  | head => exact ⟨rfl, rfl, rfl, rfl, rfl⟩
  | tail _ h2 =>
    cases h2 with
    | head => exact ⟨rfl, rfl, rfl, rfl, rfl⟩
    | tail _ h3 => cases h3

theorem send_get_miss (tries : Nat) (resp : Nat → Response)
    (tok : Nat → String) (now : Nat) (baseUrl endpoint : String)
    (dataEnc : Option String) (cacheSt : Cache)
    (hmiss : cacheSt.lookup (getUrl baseUrl endpoint dataEnc) = none) :
    send tries resp tok now baseUrl endpoint dataEnc "GET" true cacheSt =
      sendNetwork tries resp tok now (getUrl baseUrl endpoint dataEnc)
        "GET" "from" true cacheSt := by
  have hg : PyStr.pyUpper "GET" = "GET" := rfl
  cases dataEnc <;>
    (simp only [getUrl] at hmiss; simp [send, getUrl, hg, hmiss])

theorem send_get_hit (tries : Nat) (resp : Nat → Response)
    (tok : Nat → String) (now : Nat) (baseUrl endpoint : String)
    (dataEnc : Option String) (cacheSt : Cache) (entry : CacheEntry)
    (hhit : cacheSt.lookup (getUrl baseUrl endpoint dataEnc) = some entry) :
    send tries resp tok now baseUrl endpoint dataEnc "GET" true cacheSt =
      { result := .ok entry.json, cache := cacheSt, requests := 0 } := by
  have hg : PyStr.pyUpper "GET" = "GET" := rfl
  cases dataEnc <;>
    (simp only [getUrl] at hhit; simp [send, getUrl, hg, hhit])

theorem send_get_nocache (tries : Nat) (resp : Nat → Response)
    (tok : Nat → String) (now : Nat) (baseUrl endpoint : String)
    (dataEnc : Option String) (cacheSt : Cache) :
    send tries resp tok now baseUrl endpoint dataEnc "GET" false cacheSt =
      sendNetwork tries resp tok now (getUrl baseUrl endpoint dataEnc)
        "GET" "from" false cacheSt := by
  have hg : PyStr.pyUpper "GET" = "GET" := rfl
  cases dataEnc <;> simp [send, getUrl, hg]

theorem send_non_get (tries : Nat) (resp : Nat → Response)
    (tok : Nat → String) (now : Nat) (baseUrl endpoint : String)
    (dataEnc : Option String) (method0 : String) (useGetCache : Bool)
    (cacheSt : Cache) (hm : PyStr.pyUpper method0 ≠ "GET") :
    send tries resp tok now baseUrl endpoint dataEnc method0 useGetCache
        cacheSt =
      sendNetwork tries resp tok now (baseUrl ++ "/" ++ endpoint)
        (PyStr.pyUpper method0)
        (if (PyStr.pyUpper method0 = "POST" ∨ PyStr.pyUpper method0 = "PUT")
            ∧ dataEnc.isSome then "to" else "from")
        false cacheSt := by
  have hbeq : (PyStr.pyUpper method0 == "GET") = false := by
    simpa using hm
  simp [send, hm, hbeq]

/-- C5: with caching enabled, two successive GETs of the same URL perform
exactly one network request — the first (a cache miss at a 200 response)
performs one request and stores the decoded body under the full URL, and
the second returns that body from the cache with zero network requests,
whatever the transport would have answered; with caching disabled each of
the two calls performs one network request and the cache is never
populated; a non-GET request leaves any cache untouched and performs its
network request even when the URL is cached. -/
theorem C5_get_cache (tries : Nat) (resp : Nat → Response)
    (tok : Nat → String) (now : Nat) (baseUrl endpoint : String)
    (dataEnc : Option String) (cacheSt : Cache) (htries : tries ≠ 0)
    (h200 : (resp 1).status = 200)
    (hmiss : cacheSt.lookup (getUrl baseUrl endpoint dataEnc) = none) :
    (send tries resp tok now baseUrl endpoint dataEnc "GET" true cacheSt =
      { result := .ok (resp 1).body
        cache := (getUrl baseUrl endpoint dataEnc,
          ⟨200, (resp 1).body, now⟩) :: cacheSt
        requests := 1 }) ∧
    (∀ tries2 resp2 tok2 now2,
      send tries2 resp2 tok2 now2 baseUrl endpoint dataEnc "GET" true
          ((getUrl baseUrl endpoint dataEnc,
            ⟨200, (resp 1).body, now⟩) :: cacheSt) =
        { result := .ok (resp 1).body
          cache := (getUrl baseUrl endpoint dataEnc,
            ⟨200, (resp 1).body, now⟩) :: cacheSt
          requests := 0 }) ∧
    (∀ resp2 tok2 now2, (resp2 1).status = 200 →
      send tries resp2 tok2 now2 baseUrl endpoint dataEnc "GET" false
          cacheSt =
        { result := .ok (resp2 1).body, cache := cacheSt, requests := 1 }) ∧
    (∀ method0, PyStr.pyUpper method0 ≠ "GET" → ∀ cacheAny : Cache,
      send tries resp tok now baseUrl endpoint dataEnc method0 true
          cacheAny =
        { result := .ok (resp 1).body, cache := cacheAny, requests := 1 }) := by
  refine ⟨?_, ?_, ?_, ?_⟩
  · rw [send_get_miss tries resp tok now baseUrl endpoint dataEnc cacheSt hmiss,
      sendNetwork_first_200 tries resp tok now _ _ _ true cacheSt htries h200]
    simp
  · intro tries2 resp2 tok2 now2
    have hhit : ((getUrl baseUrl endpoint dataEnc,
        (⟨200, (resp 1).body, now⟩ : CacheEntry)) :: cacheSt).lookup
          (getUrl baseUrl endpoint dataEnc) =
        some ⟨200, (resp 1).body, now⟩ := by
      simp [List.lookup]
    rw [send_get_hit tries2 resp2 tok2 now2 baseUrl endpoint dataEnc _ _ hhit]
  · intro resp2 tok2 now2 h200b
    rw [send_get_nocache tries resp2 tok2 now2 baseUrl endpoint dataEnc cacheSt,
      sendNetwork_first_200 tries resp2 tok2 now2 _ _ _ false cacheSt htries h200b]
    simp
  · intro method0 hm cacheAny
    rw [send_non_get tries resp tok now baseUrl endpoint dataEnc method0 true
      cacheAny hm,
      sendNetwork_first_200 tries resp tok now _ _ _ false cacheAny htries h200]
    simp

/-- C5, witness: one concrete GET at a 200-answering transport fills the
cache with one network request, and an immediately repeated GET answers
from the cache with zero network requests. -/
theorem C5_get_cache_witness :
    (send 1 respOk tokSample 0 "https://api.dns.constellix.com/v1/domains"
      "123" none "GET" true []).requests = 1 ∧
    (send 1 respOk tokSample 0 "https://api.dns.constellix.com/v1/domains"
      "123" none "GET" true
      (send 1 respOk tokSample 0 "https://api.dns.constellix.com/v1/domains"
        "123" none "GET" true []).cache).requests = 0 ∧
    (send 1 respOk tokSample 0 "https://api.dns.constellix.com/v1/domains"
      "123" none "POST" true []).requests = 1 := by
  have h := C5_get_cache 1 respOk tokSample 0
    "https://api.dns.constellix.com/v1/domains" "123" none []
    (by decide) rfl rfl
  refine ⟨?_, ?_, ?_⟩
  · rw [h.1]
  · rw [h.1]
    rw [h.2.1 1 respOk tokSample 0]
  · rw [h.2.2.2 "POST" (by decide) []]

end Constellix

namespace Dns

theorem splitChars_ne_nil (sep : Char) :
    ∀ (cs acc : List Char), PyStr.splitChars sep acc cs ≠ [] := by
  intro cs
  induction cs with
  | nil => intro acc; simp [PyStr.splitChars]
  | cons c cs ih =>
    intro acc
    by_cases h : c = sep
    · simp [PyStr.splitChars, h]
    · simpa [PyStr.splitChars, h] using ih (c :: acc)

theorem joinChars_splitChars :
    ∀ (cs acc : List Char),
    PyStr.joinChars (PyStr.splitChars '.' acc cs) = acc.reverse ++ cs := by
  intro cs
  induction cs with
  | nil => intro acc; simp [PyStr.splitChars, PyStr.joinChars]
  | cons c cs ih =>
    intro acc
    by_cases h : c = '.'
    · subst h
      simp only [PyStr.splitChars, if_pos rfl]
      cases hsp : PyStr.splitChars '.' [] cs with
      | nil => exact absurd hsp (splitChars_ne_nil '.' cs [])
      | cons y ys =>
        have hj : PyStr.joinChars (y :: ys) = cs := by
          have h2 := ih []
          rw [hsp] at h2
          simpa using h2
        simp [PyStr.joinChars, hj]
    · simp only [PyStr.splitChars, if_neg h]
      rw [ih (c :: acc)]
      simp

theorem joinChars_append :
    ∀ (pre suf : List (List Char)), pre ≠ [] → suf ≠ [] →
    PyStr.joinChars (pre ++ suf) =
      PyStr.joinChars pre ++ '.' :: PyStr.joinChars suf := by
  intro pre
  induction pre with
  | nil => intro suf h _; exact absurd rfl h
  | cons x pre ih =>
    intro suf _ hsuf
    cases pre with
    | nil =>
      cases suf with
      | nil => exact absurd rfl hsuf
      | cons y ys => simp [PyStr.joinChars]
    | cons p ps =>
      have h2 := ih suf (by simp) hsuf
      simp only [List.cons_append] at h2 ⊢
      simp only [PyStr.joinChars]
      rw [h2]
      simp

theorem take_join_prefix (segs : List (List Char)) (k : Nat)
    (hk0 : 0 < k) (hk : k < segs.length) :
    (PyStr.joinChars segs).take
        ((PyStr.joinChars segs).length -
          ((PyStr.joinChars (segs.drop k)).length + 1)) =
      PyStr.joinChars (segs.take k) := by
  have hpre : segs.take k ≠ [] := by
    intro h
    have h2 : (segs.take k).length = 0 := by rw [h]; rfl
    rw [List.length_take] at h2
    omega
  have hsuf : segs.drop k ≠ [] := by
    intro h
    have h2 : (segs.drop k).length = 0 := by rw [h]; rfl
    rw [List.length_drop] at h2
    omega
  have hj : PyStr.joinChars segs =
      PyStr.joinChars (segs.take k) ++ '.' :: PyStr.joinChars (segs.drop k) := by
    conv_lhs => rw [← List.take_append_drop k segs]
    exact joinChars_append _ _ hpre hsuf
  rw [hj]
  have hlen : (PyStr.joinChars (segs.take k) ++
      '.' :: PyStr.joinChars (segs.drop k)).length -
        ((PyStr.joinChars (segs.drop k)).length + 1) =
      (PyStr.joinChars (segs.take k)).length := by
    simp [List.length_append]
  rw [hlen]
  exact List.take_left _ _

theorem searchLoop_found (search : String → List ZoneData)
    (parts : List String) :
    ∀ fuel a a' res, searchLoop search parts fuel a = (a', res) → res ≠ [] →
      a ≤ a' ∧ a' < a + fuel ∧
      search (PyStr.pyJoinDot (parts.drop (a' - 1))) = res ∧
      ∀ j, a ≤ j → j < a' →
        search (PyStr.pyJoinDot (parts.drop (j - 1))) = [] := by
  intro fuel
  induction fuel with
  | zero =>
    intro a a' res h hne
    simp only [searchLoop] at h
    obtain ⟨rfl, rfl⟩ := Prod.mk.injEq .. ▸ h
    exact absurd rfl hne
  | succ n ih =>
    intro a a' res h hne
    by_cases hemp : (search (PyStr.pyJoinDot (parts.drop (a - 1)))).isEmpty
    · simp only [searchLoop, hemp, if_true] at h
      obtain ⟨hle, hlt, hs, hprev⟩ := ih (a + 1) a' res h hne
      refine ⟨by omega, by omega, hs, ?_⟩
      intro j hj1 hj2
      by_cases hja : j = a
      · subst hja
        exact List.isEmpty_iff.mp hemp
      · exact hprev j (by omega) hj2
    · simp only [searchLoop, hemp, Bool.false_eq_true, if_false] at h
      obtain ⟨rfl, rfl⟩ := Prod.mk.injEq .. ▸ h
      refine ⟨Nat.le_refl a, by omega, rfl, ?_⟩
      intro j hj1 hj2
      omega

theorem exactSearch_head (zones : List ZoneData) (q : String)
    (z : ZoneData) (rest : List ZoneData)
    (h : exactSearch zones q = z :: rest) : z ∈ zones ∧ z.name = q := by
  have hz : z ∈ exactSearch zones q := by
    rw [h]; exact List.mem_cons_self _ _
  have hm := List.mem_filter.mp hz
  exact ⟨hm.1, by simpa using hm.2⟩

/-- C6: the zone-locating constructor progressively drops the leftmost
label and searches each remaining suffix as an exact zone name; the first
suffix with a non-empty result becomes the owning zone (every shorter
drop having searched empty), and the local record name is the dropped
label prefix (empty when the whole FQDN matched). In particular, on
`demo.sydney.example.com` with `example.com` the only registered zone it
yields zone `example.com` with local name `demo.sydney`, and on
`example.com` itself the empty local name. -/
theorem C6_zone_locator :
    (∀ (zones : List ZoneData) (fqdn : String) (loc : Located),
      domainLocate (exactSearch zones) fqdn = some loc →
      ∃ k, k < (PyStr.pySplitDot fqdn).length ∧
        (∀ j, j < k →
          exactSearch zones
            (PyStr.pyJoinDot ((PyStr.pySplitDot fqdn).drop j)) = []) ∧
        (∃ z, z ∈ zones ∧
          z.name = PyStr.pyJoinDot ((PyStr.pySplitDot fqdn).drop k) ∧
          loc.parent_id = z.id ∧ loc.parent_name = z.name) ∧
        loc.name = (if 0 < k then
          PyStr.pyJoinDot ((PyStr.pySplitDot fqdn).take k) else "")) ∧
    domainLocate (exactSearch [⟨100, "example.com"⟩])
        "demo.sydney.example.com" =
      some ⟨100, "example.com", "demo.sydney"⟩ ∧
    domainLocate (exactSearch [⟨100, "example.com"⟩]) "example.com" =
      some ⟨100, "example.com", ""⟩ := by
  refine ⟨?_, by rfl, by rfl⟩
  intro zones fqdn loc hloc
  simp only [domainLocate] at hloc
  rcases hsl : searchLoop (exactSearch zones) (PyStr.pySplitDot fqdn)
      (PyStr.pySplitDot fqdn).length 1 with ⟨a', res⟩
  rw [hsl] at hloc
  cases res with
  | nil => exact absurd hloc (by simp)
  | cons z rest =>
    simp only [Option.some.injEq] at hloc
    obtain ⟨h1le, hlt, hsr, hprev⟩ :=
      searchLoop_found (exactSearch zones) (PyStr.pySplitDot fqdn)
        (PyStr.pySplitDot fqdn).length 1 a' (z :: rest) hsl (by simp)
    obtain ⟨hzmem, hzname⟩ := exactSearch_head zones _ z rest hsr
    refine ⟨a' - 1, by omega, ?_, ⟨z, hzmem, ?_, ?_, ?_⟩, ?_⟩
    · intro j hj
      have := hprev (j + 1) (by omega) (by omega)
      simpa using this
    · rw [hzname]
    · rw [← hloc]
    · rw [← hloc]
    · rw [← hloc]
      simp only
      by_cases hk0 : 0 < a' - 1
      · rw [if_pos (by omega : 1 < a'), if_pos hk0]
        have hdata : ∀ l : List Char, (String.mk l).data = l := fun _ => rfl
        have hsegs : (PyStr.pySplitDot fqdn).map String.data =
            PyStr.splitChars '.' [] fqdn.data := by
          simp only [PyStr.pySplitDot, List.map_map]
          have hcomp : (String.data ∘ fun l : List Char => String.mk l) = id := rfl
          rw [hcomp, List.map_id]
        have hfq : PyStr.joinChars (PyStr.splitChars '.' [] fqdn.data) =
            fqdn.data := by
          simpa using joinChars_splitChars fqdn.data []
        have hlen2 : (PyStr.pySplitDot fqdn).length =
            (PyStr.splitChars '.' [] fqdn.data).length := by
          rw [← hsegs, List.length_map]
        have hname : z.name =
            String.mk (PyStr.joinChars
              ((PyStr.splitChars '.' [] fqdn.data).drop (a' - 1))) := by
          rw [hzname]
          simp only [PyStr.pyJoinDot]
          congr 1
          rw [List.map_drop, hsegs]
        have htake : PyStr.pyJoinDot ((PyStr.pySplitDot fqdn).take (a' - 1)) =
            String.mk (PyStr.joinChars
              ((PyStr.splitChars '.' [] fqdn.data).take (a' - 1))) := by
          simp only [PyStr.pyJoinDot]
          congr 1
          rw [List.map_take, hsegs]
        rw [hname, htake]
        simp only [PyStr.pyTake]
        congr 1
        have hlfq : fqdn.length = fqdn.data.length := rfl
        have hlmk : ∀ l : List Char, (String.mk l).length = l.length :=
          fun _ => rfl
        have hinst := take_join_prefix (PyStr.splitChars '.' [] fqdn.data)
          (a' - 1) hk0 (by omega)
        rw [hfq] at hinst
        rw [hlfq, hlmk]
        exact hinst
      · rw [if_neg (by omega : ¬1 < a'), if_neg hk0]

/-- C6, witness: the general conjunct applied to the concrete FQDN
`demo.sydney.example.com` with only `example.com` registered. -/
theorem C6_zone_locator_witness :
    ∃ k, k < (PyStr.pySplitDot "demo.sydney.example.com").length ∧
      (∀ j, j < k →
        exactSearch [⟨100, "example.com"⟩]
          (PyStr.pyJoinDot
            ((PyStr.pySplitDot "demo.sydney.example.com").drop j)) = []) ∧
      (∃ z, z ∈ [(⟨100, "example.com"⟩ : ZoneData)] ∧
        z.name = PyStr.pyJoinDot
          ((PyStr.pySplitDot "demo.sydney.example.com").drop k) ∧
        (⟨100, "example.com", "demo.sydney"⟩ : Located).parent_id = z.id ∧
        (⟨100, "example.com", "demo.sydney"⟩ : Located).parent_name = z.name) ∧
      (⟨100, "example.com", "demo.sydney"⟩ : Located).name =
        (if 0 < k then
          PyStr.pyJoinDot
            ((PyStr.pySplitDot "demo.sydney.example.com").take k) else "") := by
  exact C6_zone_locator.1 [⟨100, "example.com"⟩] "demo.sydney.example.com"
    ⟨100, "example.com", "demo.sydney"⟩ (by rfl)

end Dns

namespace Dns

theorem clean_values_provenance (canon : String → Option String)
    (isIp : Bool) :
    ∀ (vs : List PyValue) (out : List String),
      clean_values canon isIp vs = .ok out →
      ∀ s, s ∈ out → ∃ v, v ∈ vs ∧ PyValue.isDisabled v = false ∧
        ∃ raw, PyValue.enabledSource v = some raw ∧
          ((isIp = false ∧ s = raw) ∨ (isIp = true ∧ canon raw = some s)) := by
  intro vs
  induction vs with
  | nil =>
    intro out h s hs
    simp only [clean_values] at h
    obtain rfl := Except.ok.inj h
    cases hs
  | cons v vs ih =>
    intro out h s hs
    cases hv : v.enabledSource with
    | none =>
      simp only [clean_values, hv] at h
      obtain ⟨v', hv', rest⟩ := ih out h s hs
      exact ⟨v', List.mem_cons_of_mem _ hv', rest⟩
    | some raw =>
      simp only [clean_values, hv] at h
      cases hcs : canonStep canon isIp raw with
      | error e =>
        simp only [hcs] at h
        exact Except.noConfusion h
      | ok s0 =>
        simp only [hcs] at h
        cases hrec : clean_values canon isIp vs with
        | error e =>
          simp only [hrec] at h
          exact Except.noConfusion h
        | ok rest =>
          simp only [hrec, Except.ok.injEq] at h
          subst h
          cases hs with
          | head =>
            refine ⟨v, List.mem_cons_self _ _, ?_, raw, hv, ?_⟩
            · cases v with
              | str s' => rfl
              | entry val flag =>
                cases flag with
                | false => rfl
                | true => simp [PyValue.enabledSource] at hv
            · cases isIp with
              | false =>
                left
                refine ⟨rfl, ?_⟩
                simp only [canonStep, Bool.false_eq_true, if_false] at hcs
                exact (Except.ok.inj hcs).symm
              | true =>
                right
                refine ⟨rfl, ?_⟩
                simp only [canonStep, if_true] at hcs
                cases hcr : canon raw with
                | none =>
                  simp only [hcr] at hcs
                  exact Except.noConfusion hcs
                | some c =>
                  simp only [hcr, Except.ok.injEq] at hcs
                  rw [hcs]
          | tail _ hs2 =>
            obtain ⟨v', hv', rest2⟩ := ih rest hrec s hs2
            exact ⟨v', List.mem_cons_of_mem _ hv', rest2⟩

theorem applyOverrides_values (id : Option Int) (rt nm : Option String)
    (r : Record) : (applyOverrides id rt nm r).values = r.values := by
  simp only [applyOverrides]
  split <;> split <;> split <;> rfl

theorem applyOverrides_record_type (id : Option Int) (rt nm : Option String)
    (r : Record) : (applyOverrides id rt nm r).record_type =
      (if truthyStr rt then rt else r.record_type) := by
  simp only [applyOverrides]
  split <;> split <;> split <;> simp_all

theorem initFromProvider_values (canon : String → Option String)
    (provider_data : Option ProviderData) (r2 : Record)
    (hp : initFromProvider canon provider_data = .ok r2) :
    r2.values = none ∨
      ∃ pd vs out, provider_data = some pd ∧ pd.value = some vs ∧
        clean_values canon (isIpType (pd.type.map PyStr.pyUpper)) vs = .ok out ∧
        r2.values = some out := by
  cases provider_data with
  | none =>
    simp only [initFromProvider] at hp
    obtain rfl := Except.ok.inj hp
    left; rfl
  | some pd =>
    simp only [initFromProvider] at hp
    cases hv : pd.value with
    | none =>
      simp only [hv] at hp
      obtain rfl := Except.ok.inj hp
      left; rfl
    | some vs =>
      simp only [hv] at hp
      cases hc : clean_values canon
          (isIpType (Option.map PyStr.pyUpper pd.type)) vs with
      | error e =>
        simp only [hc] at hp
        exact Except.noConfusion hp
      | ok cleaned =>
        simp only [hc, Except.ok.injEq] at hp
        subst hp
        right
        exact ⟨pd, vs, cleaned, rfl, hv, hc, rfl⟩

theorem record_init_values_provenance (canon : String → Option String)
    (id : Option Int) (record_type name : Option String)
    (values : Option ValuesArg) (provider_data : Option ProviderData)
    (r : Record)
    (hinit : Record.init canon id record_type name values provider_data =
      .ok r) :
    r.values = none ∨
      ∃ isIp vs out, clean_values canon isIp vs = .ok out ∧
        r.values = some out ∧
        ((∃ pd, provider_data = some pd ∧ pd.value = some vs) ∨
         (∃ va, values = some va ∧ vs = va.asList)) := by
  simp only [Record.init] at hinit
  cases hp : initFromProvider canon provider_data with
  | error e =>
    simp only [hp] at hinit
    exact Except.noConfusion hinit
  | ok r2 =>
    simp only [hp] at hinit
    have hprov := initFromProvider_values canon provider_data r2 hp
    cases values with
    | none =>
      simp only [Except.ok.injEq] at hinit
      subst hinit
      rw [applyOverrides_values]
      cases hprov with
      | inl hz => left; exact hz
      | inr hz =>
        obtain ⟨pd, vs, out, hpd, hvs, hc, hval⟩ := hz
        right
        exact ⟨_, vs, out, hc, hval, Or.inl ⟨pd, hpd, hvs⟩⟩
    | some va =>
      by_cases ht : truthyValues (some va) = true
      · simp only [if_pos ht] at hinit
        cases hc : clean_values canon
            (isIpType (applyOverrides id record_type name r2).record_type)
            va.asList with
        | error e =>
          simp only [hc] at hinit
          exact Except.noConfusion hinit
        | ok cleaned =>
          simp only [hc, Except.ok.injEq] at hinit
          subst hinit
          right
          exact ⟨_, va.asList, cleaned, hc, rfl, Or.inr ⟨va, rfl, rfl⟩⟩
      · simp only [if_neg ht] at hinit
        simp only [Except.ok.injEq] at hinit
        subst hinit
        rw [applyOverrides_values]
        cases hprov with
        | inl hz => left; exact hz
        | inr hz =>
          obtain ⟨pd, vs, out, hpd, hvs, hc, hval⟩ := hz
          right
          exact ⟨_, vs, out, hc, hval, Or.inl ⟨pd, hpd, hvs⟩⟩

/-- C9: a Record's `values` list, however the record is constructed, only
ever contains strings cleaned by `__clean_values`, and `__clean_values`
only keeps non-disabled source entries — every output string originates
from a plain string or an enabled `{value, disableFlag}` entry, disabled
entries contributing nothing. -/
theorem C9_values_exclude_disabled :
    (∀ (canon : String → Option String) (isIp : Bool) (vs : List PyValue)
      (out : List String),
      clean_values canon isIp vs = .ok out →
      ∀ s, s ∈ out → ∃ v, v ∈ vs ∧ PyValue.isDisabled v = false ∧
        ∃ raw, PyValue.enabledSource v = some raw ∧
          ((isIp = false ∧ s = raw) ∨ (isIp = true ∧ canon raw = some s))) ∧
    (∀ (canon : String → Option String) (id : Option Int)
      (record_type name : Option String) (values : Option ValuesArg)
      (provider_data : Option ProviderData) (r : Record),
      Record.init canon id record_type name values provider_data = .ok r →
      r.values = none ∨
        ∃ isIp vs out, clean_values canon isIp vs = .ok out ∧
          r.values = some out ∧
          ((∃ pd, provider_data = some pd ∧ pd.value = some vs) ∨
           (∃ va, values = some va ∧ vs = va.asList))) := by
  exact ⟨clean_values_provenance,
    record_init_values_provenance⟩

/-- C9, witness: cleaning a list holding one enabled and one disabled
entry keeps only the enabled value, and the kept value traces back to the
enabled entry. -/
theorem C9_values_exclude_disabled_witness :
    ∃ v, v ∈ [PyValue.entry "172.16.1.100" false,
        PyValue.entry "10.0.0.1" true] ∧
      PyValue.isDisabled v = false ∧
      ∃ raw, PyValue.enabledSource v = some raw ∧
        ((true = false ∧ "172.16.1.100" = raw) ∨
         (true = true ∧ idCanon raw = some "172.16.1.100")) := by
  exact C9_values_exclude_disabled.1 idCanon true
    [PyValue.entry "172.16.1.100" false, PyValue.entry "10.0.0.1" true]
    ["172.16.1.100"] (by rfl) "172.16.1.100" (by simp)

/-- C1: the claim says an empty/absent desired value list with a current
record present yields a single delete keyed by the current record's id.
The code cannot do this: `Domain.__diff` receives `current` as the list
returned by the `Records` per-type property and line 183
(`print(current.values)`) raises `AttributeError` before any diff logic
runs — and even past that line, iterating `new_values = None` would raise
`TypeError`, `to_delete` holds values rather than ids, and `add_update`
only ever appends add operations. Evaluated at a current A record with
id 123 and an absent desired list: the diff raises instead of returning a
delete operation. -/
theorem C1_diff_desired_empty_crashes :
    Domain.diff [recA] none = .error .attributeError ∧
    (∀ out, Domain.diff [recA] none ≠ .ok out) ∧
    Domain.add_update idCanon (domainInitTtl none) "demo.sydney" [] [recA]
        "A" none = .error .attributeError := by
  refine ⟨rfl, ?_, rfl⟩
  intro out h
  exact Except.noConfusion
    ((rfl : Domain.diff [recA] none =
      .error .attributeError).symm.trans h)

/-- C7: the claim says a Record rebuilt from a provider payload of only
enabled values, diffed against those same values, yields only `exists`.
The reconstruction does work — but `Domain.__diff` raises
`AttributeError` at line 183 (`current` is the list the `Records`
property returns, and a list has no `values` attribute), so the diff
never yields the `exists` set. Evaluated at the concrete payload. -/
theorem C7_roundtrip_diff_crashes :
    Record.init idCanon none none none none (some pdRound) = .ok recRound ∧
    recRound.values = some ["172.16.1.100"] ∧
    Domain.diff [recRound] (some ["172.16.1.100"]) =
      .error .attributeError ∧
    (∀ d, Domain.diff [recRound] (some ["172.16.1.100"]) ≠ .ok (some d)) := by
  refine ⟨rfl, rfl, rfl, ?_⟩
  intro d h
  exact Except.noConfusion
    ((rfl : Domain.diff [recRound] (some ["172.16.1.100"]) =
      .error .attributeError).symm.trans h)

/-- C10, counterexample to the claim as stated: `ttl = 0` is a non-None
constructor argument, yet `if ttl:` is a truthiness test, so the
constructor takes the `else` branch, initialises the internal clamped TTL
to 3600 through the `deafult_ttl` setter, and subsequent property reads
and template calls succeed rather than raising `AttributeError`. -/
theorem C10_counterexample_ttl_zero :
    domainInitTtl (some 0) = { default_ttl := none, internal := some 3600 } ∧
    deafult_ttl_get (domainInitTtl (some 0)) = .ok 3600 ∧
    template_A idCanon "demo" (domainInitTtl (some 0)) none none =
      .ok { name := "demo", ttl := 3600, roundRobin := [] } :=
  ⟨rfl, rfl, rfl⟩

/-- C10 (amended): for every Domain constructed with a *truthy* (non-None
and non-zero) ttl argument, the constructor assigns the plain attribute
`default_ttl` instead of going through the misspelled `deafult_ttl`
property's clamping setter, so the internal clamped TTL is never
initialised, and any later read of the `deafult_ttl` property — or any
`template_*` call whose own `ttl` argument is falsy, which reads the
internal TTL — raises `AttributeError`; when the ttl argument is omitted
the internal TTL is initialised to 3600 through the clamping setter. -/
theorem C10_ttl_truthy_amended (t : Int) (ht : t ≠ 0) :
    (domainInitTtl (some t)).default_ttl = some t ∧
    (domainInitTtl (some t)).internal = none ∧
    deafult_ttl_get (domainInitTtl (some t)) = .error .attributeError ∧
    (∀ (canon : String → Option String) (domainName : String)
      (values : Option (List String)),
      template_A canon domainName (domainInitTtl (some t)) values none =
        .error .attributeError) ∧
    (∀ (canon : String → Option String) (domainName : String)
      (values : Option (List String)),
      template_A canon domainName (domainInitTtl (some t)) values (some 0) =
        .error .attributeError) ∧
    domainInitTtl none = { default_ttl := none, internal := some 3600 } := by
  refine ⟨?_, ?_, ?_, ?_, ?_, rfl⟩
  · simp [domainInitTtl, ht]
  · simp [domainInitTtl, ht]
  · simp [domainInitTtl, ht, deafult_ttl_get]
  · intro canon domainName values
    simp [domainInitTtl, ht, template_A, readInternalTtl]
  · intro canon domainName values
    simp [domainInitTtl, ht, template_A, readInternalTtl]

/-- C10, witness for the amended theorem at the concrete truthy ttl 1800. -/
theorem C10_ttl_truthy_amended_witness :
    (domainInitTtl (some 1800)).internal = none ∧
    deafult_ttl_get (domainInitTtl (some 1800)) = .error .attributeError := by
  have h := C10_ttl_truthy_amended 1800 (by decide)
  exact ⟨h.2.1, h.2.2.1⟩

end Dns

namespace Host

/-- C8: for an IP whose reverse zone resolves, `create_ptr` is a no-op
returning the existing PTR record when that record's enabled values
contain the forward FQDN with a trailing dot; otherwise it issues an
update keyed by the existing record's id (when a PTR record exists) or a
create (when none exists). -/
theorem C8_create_ptr_cases
    (get_domain : String → Option PtrParent)
    (apiSearch : Int → String → String → List SearchRec)
    (apiGet : Int → String → Int → Option PtrRecordData)
    (apiUpdate : Int → String → Int → PtrPayload → Option Constellix.Json)
    (apiCreate : Int → String → PtrPayload → Option Constellix.Json)
    (rev domain0 : String) (parent : PtrParent)
    (hres : get_domain rev = some parent) :
    (∀ sr rec,
      get_domain_record apiSearch parent.id parent.subdomain "ptr" =
        some sr →
      apiGet parent.id "PTR" sr.id = some rec →
      (check_value rec.value (withDot domain0) = true →
        create_ptr get_domain apiSearch apiGet apiUpdate apiCreate rev
          domain0 = .noop rec) ∧
      (check_value rec.value (withDot domain0) = false →
        create_ptr get_domain apiSearch apiGet apiUpdate apiCreate rev
            domain0 =
          .updated parent.id rec.id
            ⟨rec.name, DEFAULT_TTL, [withDot domain0]⟩
            (apiUpdate parent.id "PTR" rec.id
              ⟨rec.name, DEFAULT_TTL, [withDot domain0]⟩))) ∧
    (get_domain_record apiSearch parent.id parent.subdomain "ptr" = none →
      create_ptr get_domain apiSearch apiGet apiUpdate apiCreate rev
          domain0 =
        .created parent.id ⟨parent.subdomain, DEFAULT_TTL, [withDot domain0]⟩
          (apiCreate parent.id "PTR"
            ⟨parent.subdomain, DEFAULT_TTL, [withDot domain0]⟩)) := by
  constructor
  · intro sr rec hsr hget
    constructor
    · intro hcv
      simp only [create_ptr, hres, hsr, hget, hcv, if_true]
    · intro hcv
      simp only [create_ptr, hres, hsr, hget, hcv, Bool.false_eq_true,
        if_false]
  · intro hnone
    simp only [create_ptr, hres, hnone, createBranch]

/-- C8, witness: a resolvable reverse zone with no existing PTR record
leads to exactly one create scoped to the reverse zone. -/
theorem C8_create_ptr_cases_witness :
    create_ptr gdSample searchEmpty apiGetNone apiUpdateNone apiCreateOk
        "100.1.16.172.in-addr.arpa" "demo.sydney.example.com" =
      .created 500 ⟨"100.1", DEFAULT_TTL, ["demo.sydney.example.com."]⟩
        (some "OK") := by
  have h := C8_create_ptr_cases gdSample searchEmpty apiGetNone
    apiUpdateNone apiCreateOk "100.1.16.172.in-addr.arpa"
    "demo.sydney.example.com" ⟨500, "100.1"⟩ (by rfl)
  exact h.2 (by rfl)

end Host

namespace Submit

/-- C2 (modelled from the spec; the repository revision of `Domain.sync`
that performs this verification is not among the source files): whenever
the per-kind counts parsed out of the provider's free-text summary differ
from the counts of add/update/delete operations actually sent, the
submission raises a fatal mismatch error carrying both count sets, and it
reports success only when the parsed counts match exactly; in particular
a batch of 2 creates and 1 delete succeeds against the summary
"2 record(s) added, 1 record(s) deleted" and raises against
"1 record(s) added". -/
theorem C2_sync_count_mismatch_raises :
    (∀ (ops : List OpKind) (summary : String),
      parseSummary summary ≠ countOps ops →
      sync_verify ops summary =
        .error { expected := countOps ops, parsed := parseSummary summary }) ∧
    (∀ ops summary res, sync_verify ops summary = .ok res →
      parseSummary summary = countOps ops ∧ res = countOps ops) ∧
    sync_verify [.add, .add, .delete]
        "2 record(s) added, 1 record(s) deleted" = .ok ⟨2, 0, 1⟩ ∧
    sync_verify [.add, .add, .delete] "1 record(s) added" =
      .error ⟨⟨2, 0, 1⟩, ⟨1, 0, 0⟩⟩ := by
  refine ⟨?_, ?_, by rfl, by rfl⟩
  · intro ops summary hne
    simp [sync_verify, hne]
  · intro ops summary res h
    simp only [sync_verify] at h
    by_cases he : parseSummary summary = countOps ops
    · rw [if_pos he] at h
      have hr := Except.ok.inj h
      exact ⟨he, by rw [← hr, he]⟩
    · rw [if_neg he] at h
      exact Except.noConfusion h

/-- C2, witness: the mismatch conjunct applied to the concrete batch of
2 creates and 1 delete against the short summary. -/
theorem C2_sync_count_mismatch_raises_witness :
    sync_verify [OpKind.add, OpKind.add, OpKind.delete]
        "1 record(s) added" =
      .error { expected := ⟨2, 0, 1⟩, parsed := ⟨1, 0, 0⟩ } := by
  have h := C2_sync_count_mismatch_raises.1
    [OpKind.add, OpKind.add, OpKind.delete] "1 record(s) added" (by decide)
  exact h

end Submit
